import Mathlib

/-!
Shallow embedding of the GLOF alert notification system
(`src/glof_alert_system.py` and the alert-triggering route of `src/app.py`).

Network effects are modelled by explicit outcome flags: the SMS provider and
the email provider are total functions of the flag that says whether the
underlying HTTP/SMTP transport succeeds, and the connectivity probe outcome
is a boolean parameter.  Mutable objects (the offline manager, the alert
record) are passed and returned explicitly.  Python strings are Lean
`String`s; Python `None` in an optional string parameter is `Option.none`,
and Python truthiness of a string (`if s:`) is `¬ s.isEmpty`.
-/

namespace GLOF

/-- Enumeration `GLOFRiskLevel` of `glof_alert_system.py`. -/
inductive GLOFRiskLevel where
  | LOW
  | MODERATE
  | HIGH
  | CRITICAL
deriving DecidableEq, Repr

/-- The `.value` string of each `GLOFRiskLevel` member. -/
def GLOFRiskLevel.value : GLOFRiskLevel → String
  | .LOW => "Low Risk"
  | .MODERATE => "Moderate Risk"
  | .HIGH => "High Risk"
  | .CRITICAL => "Critical"

/-- Enumeration `UserType` of `glof_alert_system.py`. -/
inductive UserType where
  | LOCAL
  | ADMIN
  | RESCUE
  | EMERGENCY_TEAM
deriving DecidableEq, Repr

/-- Enumeration `AlertStatus` of `glof_alert_system.py`. -/
inductive AlertStatus where
  | PENDING
  | SENT
  | FAILED
  | OFFLINE_QUEUED
deriving DecidableEq, Repr

/-- Dataclass `GLOFContact`. -/
structure GLOFContact where
  name : String
  phone : String
  email : String
  user_type : UserType
  region : String
  lake_area : String
  id : String
  active : Bool := true
deriving DecidableEq, Repr

/-- Dataclass `GLOFAlert`.  `sent_at = none` models Python `None`. -/
structure GLOFAlert where
  id : String
  glacial_lake : String
  risk_level : GLOFRiskLevel
  timestamp : String
  message : String
  contacts : List String
  status : AlertStatus
  created_at : String
  sent_at : Option String := none
  retry_count : Nat := 0
deriving DecidableEq, Repr

/-- The predefined contact list built in `GLOFContactManager.__init__`. -/
def predefinedContacts : List GLOFContact :=
  [ { id := "Defence_Base"
    , name := "DEFENCE AUTHORITY"
    , phone := "+918956911720"
    , email := "bhavsarkrishna02@gmail.com"
    , user_type := .ADMIN
    , region := "NORTH_REGION"
    , lake_area := "ALL" }
  , { id := "emergency_team_1"
    , name := "Emergency Response Team"
    , phone := "+919765743155"
    , email := "rajputmanas593@gmail.com"
    , user_type := .EMERGENCY_TEAM
    , region := "NORTH_REGION"
    , lake_area := "ALL" }
  , { id := "rescue_pangong_1"
    , name := "Local residential store pangong Tso"
    , phone := "+919699216764"
    , email := "yash61304@gmail.com"
    , user_type := .RESCUE
    , region := "NORTH_REGION"
    , lake_area := "ALL" } ]

/-- Method `GLOFContactManager.get_contacts_for_lake`: keeps every contact
whose `lake_area` is `"ALL"` or equals the lake name, whose role passes the
filter (an empty `user_types` list models Python `None`/falsy: no filter),
and which is active. -/
def get_contacts_for_lake (contacts : List GLOFContact) (lake_name : String)
    (user_types : List UserType) : List GLOFContact :=
  contacts.filter fun c =>
    (c.lake_area == "ALL" || c.lake_area == lake_name)
      && (user_types.isEmpty || user_types.contains c.user_type)
      && c.active

/-- Static method `GLOFMessageFormatter.format_glof_message`.  `now` stands
for the `datetime.now()` string used when `timestamp` is falsy; the Python
check `if additional_info:` is false for both `None` and the empty string. -/
def format_glof_message (glacial_lake : String) (risk_level : GLOFRiskLevel)
    (timestamp : Option String) (additional_info : Option String)
    (now : String) : String :=
  let ts : String :=
    match timestamp with
    | none => now
    | some t => if t.isEmpty then now else t
  let message : String :=
    "⚠️ *[" ++ risk_level.value.toUpper ++ " GLOF ALERT]*\n\n*Glacial Lake:* "
      ++ glacial_lake ++ "\n*Risk Level:* " ++ risk_level.value
      ++ "\n*Time:* " ++ ts
      ++ "\n\n*Immediate evacuation advised. Emergency team notified.*"
  match additional_info with
  | some info =>
      if info.isEmpty then message
      else message ++ "\n\n*Additional Info:* " ++ info
  | none => message

/-- Static method `GLOFMessageFormatter.format_all_clear_message`. -/
def format_all_clear_message (glacial_lake : String) (timestamp : Option String)
    (now : String) : String :=
  let ts : String :=
    match timestamp with
    | none => now
    | some t => if t.isEmpty then now else t
  "✅ *[GLOF ALL CLEAR]*\n\n*Glacial Lake:* " ++ glacial_lake
    ++ "\n*Status:* Risk Level Reduced\n*Time:* " ++ ts
    ++ "\n\n*Immediate threat has passed. Continue monitoring.*"

/-- One left-to-right non-overlapping pass of Python `num.replace('+91', '')`:
whenever the next three characters are `+`, `9`, `1` they are dropped and the
scan resumes after them, otherwise the head character is kept. -/
def stripPlus91 : List Char → List Char
  | '+' :: '9' :: '1' :: rest => stripPlus91 rest
  | c :: rest => c :: stripPlus91 rest
  | [] => []

/-- Python `num.replace('-', '')`: every dash is dropped. -/
def removeDashes : List Char → List Char
  | '-' :: rest => removeDashes rest
  | c :: rest => c :: removeDashes rest
  | [] => []

/-- Python `num.replace(' ', '')`: every space is dropped. -/
def removeSpaces : List Char → List Char
  | ' ' :: rest => removeSpaces rest
  | c :: rest => c :: removeSpaces rest
  | [] => []

/-- The per-number normalization in `Fast2SMSProvider.send_glof_sms`, line 137:
`num.replace('+91', '').replace('-', '').replace(' ', '')`. -/
def clean_number (num : String) : String :=
  String.mk (removeSpaces (removeDashes (stripPlus91 num.data)))

/-- The `numbers` field of the payload in `Fast2SMSProvider.send_glof_sms`:
`','.join(clean_numbers)` over the normalized numbers. -/
def sms_numbers_field (phone_numbers : List String) : String :=
  String.intercalate "," (phone_numbers.map clean_number)

/-- Whether the substring `+91` occurs anywhere in the character list. -/
def hasPlus91 : List Char → Bool
  | '+' :: '9' :: '1' :: _ => true
  | _ :: rest => hasPlus91 rest
  | [] => false

/-- Dropping only a leading `+91` country-code prefix, as the spec words the
normalization (`stripping a leading country-code prefix`); the code, by
contrast, removes every occurrence. -/
def dropLeadingPlus91 : List Char → List Char
  | '+' :: '9' :: '1' :: rest => rest
  | l => l

/-- The normalization as the spec words it: remove the `+91` country-code
prefix, then all dashes and all spaces. -/
def spec_normalize (num : String) : String :=
  String.mk (removeSpaces (removeDashes (dropLeadingPlus91 num.data)))

/-- Result dictionary of `GLOFEmailProvider.send_glof_email`, extended with
observations of the control flow: whether `server.quit()` was reached and
whether the outer `except` handler fired. -/
structure EmailSendResult where
  success : Bool
  successful_sends : Nat
  failed_recipients : List String
  quitCalled : Bool
  errored : Bool
deriving DecidableEq, Repr

/-- Method `GLOFEmailProvider.send_glof_email`.  `connectOk`, `starttlsOk` and
`loginOk` say whether `smtplib.SMTP(...)`, `server.starttls()` and
`server.login(...)` succeed (a `false` models the call raising, caught by the
outer `except`, which returns a failure dictionary without calling
`server.quit()`).  `recipients` pairs each recipient with the outcome of its
`server.sendmail` call; a per-recipient failure is caught by the inner
`except` and recorded, and the loop continues, after which `server.quit()`
runs. -/
def send_glof_email (connectOk starttlsOk loginOk : Bool)
    (recipients : List (String × Bool)) : EmailSendResult :=
  if connectOk && starttlsOk && loginOk then
    let failed := (recipients.filter fun r => !r.2).map Prod.fst
    let sends := (recipients.filter fun r => r.2).length
    { success := failed.isEmpty
    , successful_sends := sends
    , failed_recipients := failed
    , quitCalled := true
    , errored := false }
  else
    { success := false
    , successful_sends := 0
    , failed_recipients := []
    , quitCalled := false
    , errored := true }

/-- The risk-score threshold mapping in route `/alert` of `app.py`, line 121:
`CRITICAL if risk_score > 70 else HIGH if risk_score > 40 else MODERATE`.
Scores arrive as JSON numbers, embedded as rationals. -/
def riskLevelOfScore (risk_score : ℚ) : GLOFRiskLevel :=
  if risk_score > 70 then .CRITICAL
  else if risk_score > 40 then .HIGH
  else .MODERATE

/-- State of `GLOFOfflineManager`: the FIFO `offline_queue` (front of the list
is the front of the queue) and the cached `is_online` flag. -/
structure OfflineManager where
  offline_queue : List GLOFAlert
  is_online : Bool
deriving DecidableEq, Repr

/-- Constructor `GLOFOfflineManager.__init__`: empty queue, online by
default. -/
def OfflineManager.start : OfflineManager :=
  { offline_queue := [], is_online := true }

/-- Method `GLOFOfflineManager.add_offline_alert`: `offline_queue.put(alert)`
appends at the back and the method returns `True`. -/
def add_offline_alert (m : OfflineManager) (alert : GLOFAlert) :
    OfflineManager × Bool :=
  ({ m with offline_queue := m.offline_queue ++ [alert] }, true)

/-- The `while not empty: get()` loop of
`GLOFOfflineManager.get_queued_alerts`: pops from the front until the queue
is empty, returning the popped alerts in pop order and the remaining queue. -/
def drainLoop : List GLOFAlert → List GLOFAlert × List GLOFAlert
  | [] => ([], [])
  | a :: rest =>
      let (popped, remaining) := drainLoop rest
      (a :: popped, remaining)

/-- Method `GLOFOfflineManager.get_queued_alerts`: drains the whole queue and
returns the drained alerts together with the manager afterwards. -/
def get_queued_alerts (m : OfflineManager) : List GLOFAlert × OfflineManager :=
  let (popped, remaining) := drainLoop m.offline_queue
  (popped, { m with offline_queue := remaining })

/-- Method `GLOFOfflineManager.check_connectivity`: `probeOk` is whether the
GET to the known host succeeds; the cached `is_online` flag is set to the
probe outcome, which is also returned. -/
def check_connectivity (m : OfflineManager) (probeOk : Bool) :
    OfflineManager × Bool :=
  ({ m with is_online := probeOk }, probeOk)

/-- Environment of a dispatch: whether an email provider was configured
(`self.email_provider` is not `None`), and the success flags the SMS and
email providers would report if invoked. -/
structure ChannelEnv where
  emailConfigured : Bool
  smsOutcome : Bool
  emailOutcome : Bool
deriving DecidableEq, Repr

/-- The `phone_numbers` list of `_send_alert` / `_send_message`:
`[c.phone for c in contacts if c.phone]`. -/
def phone_numbers (contacts : List GLOFContact) : List String :=
  (contacts.filter fun c => !c.phone.isEmpty).map GLOFContact.phone

/-- The `email_addresses` list of `_send_alert` / `_send_message`:
`[c.email for c in contacts if c.email]`. -/
def email_addresses (contacts : List GLOFContact) : List String :=
  (contacts.filter fun c => !c.email.isEmpty).map GLOFContact.email

/-- Outcome of `GLOFAlertSystem._send_alert`: the alert as mutated, the
offline manager afterwards, the returned boolean, and whether each channel's
provider was invoked. -/
structure DispatchResult where
  alert : GLOFAlert
  offline : OfflineManager
  returned : Bool
  smsAttempted : Bool
  emailAttempted : Bool
deriving DecidableEq, Repr

/-- Method `GLOFAlertSystem._send_alert`, lines 407-455.  SMS is attempted
whenever `phone_numbers` is non-empty; if that attempt fails and the cached
connectivity flag is off, the alert is marked `OFFLINE_QUEUED`, enqueued and
the method returns `True` at once.  Otherwise email is attempted when a
provider is configured, addresses exist and the flag is on; the final status
is `SENT` (with `sent_at` set to `now`) on any channel success, `FAILED`
otherwise. -/
def sendAlertCore (env : ChannelEnv) (m : OfflineManager) (alert : GLOFAlert)
    (contacts : List GLOFContact) (now : String) : DispatchResult :=
  let phones := phone_numbers contacts
  let emails := email_addresses contacts
  let smsAttempted := !phones.isEmpty
  let sms_success := smsAttempted && env.smsOutcome
  if smsAttempted && !env.smsOutcome && !m.is_online then
    let queuedAlert := { alert with status := .OFFLINE_QUEUED }
    { alert := queuedAlert
    , offline := (add_offline_alert m queuedAlert).1
    , returned := true
    , smsAttempted := true
    , emailAttempted := false }
  else
    let emailAttempted := env.emailConfigured && !emails.isEmpty && m.is_online
    let email_success := emailAttempted && env.emailOutcome
    if sms_success || email_success then
      { alert := { alert with status := .SENT, sent_at := some now }
      , offline := m
      , returned := true
      , smsAttempted := smsAttempted
      , emailAttempted := emailAttempted }
    else
      { alert := { alert with status := .FAILED }
      , offline := m
      , returned := false
      , smsAttempted := smsAttempted
      , emailAttempted := emailAttempted }

/-- Outcome of `GLOFAlertSystem._send_message`: the returned boolean and
whether each channel's provider was invoked. -/
structure MessageResult where
  returned : Bool
  smsAttempted : Bool
  emailAttempted : Bool
deriving DecidableEq, Repr

/-- Method `GLOFAlertSystem._send_message`, lines 457-478 (the dispatch used
by `send_all_clear`).  SMS is attempted only when the connectivity flag is on
and numbers exist; email only when a provider is configured, the flag is on
and addresses exist; the result is the OR of the two channel successes and
nothing is ever queued. -/
def sendMessageCore (env : ChannelEnv) (m : OfflineManager)
    (contacts : List GLOFContact) : MessageResult :=
  let phones := phone_numbers contacts
  let emails := email_addresses contacts
  let smsAttempted := m.is_online && !phones.isEmpty
  let sms_success := smsAttempted && env.smsOutcome
  let emailAttempted := env.emailConfigured && m.is_online && !emails.isEmpty
  let email_success := emailAttempted && env.emailOutcome
  { returned := sms_success || email_success
  , smsAttempted := smsAttempted
  , emailAttempted := emailAttempted }

/-- The default role list of `send_glof_alert` / `send_all_clear`, installed
when `target_user_types` is `None` or empty. -/
def defaultUserTypes : List UserType :=
  [.LOCAL, .ADMIN, .RESCUE, .EMERGENCY_TEAM]

/-- The `if not target_user_types:` defaulting step. -/
def effectiveUserTypes (target_user_types : List UserType) : List UserType :=
  if target_user_types.isEmpty then defaultUserTypes else target_user_types

/-- Outcome of `GLOFAlertSystem.send_glof_alert`: the alert record it created
(`none` when it bailed out before creating one), the offline manager
afterwards, the returned boolean, and the channel-attempt observations. -/
structure TopResult where
  createdAlert : Option GLOFAlert
  offline : OfflineManager
  returned : Bool
  smsAttempted : Bool
  emailAttempted : Bool
deriving DecidableEq, Repr

/-- The alert id built in `send_glof_alert`:
`f"glof_{glacial_lake.replace(' ', '_')}_{...}"` with `idStamp` standing for
the `%Y%m%d_%H%M%S` timestamp. -/
def mkAlertId (glacial_lake : String) (idStamp : String) : String :=
  "glof_" ++ String.mk (glacial_lake.data.map fun c => if c = ' ' then '_' else c)
    ++ "_" ++ idStamp

/-- Method `GLOFAlertSystem.send_glof_alert`, lines 331-378.  Roles default
to all four user types; contacts are resolved against the predefined list;
with no contact the method returns `False` at once, touching nothing.
Otherwise it formats the message, creates a `PENDING` alert record and hands
it to `_send_alert`.  `now` is the `%Y-%m-%d %H:%M IST` timestamp, `nowIso`
the ISO timestamp, `idStamp` the id timestamp, all from `datetime.now()`. -/
def send_glof_alert (env : ChannelEnv) (m : OfflineManager)
    (glacial_lake : String) (risk_level : GLOFRiskLevel)
    (additional_info : Option String) (target_user_types : List UserType)
    (now nowIso idStamp : String) : TopResult :=
  let roles := effectiveUserTypes target_user_types
  let contacts := get_contacts_for_lake predefinedContacts glacial_lake roles
  if contacts.isEmpty then
    { createdAlert := none
    , offline := m
    , returned := false
    , smsAttempted := false
    , emailAttempted := false }
  else
    let message := format_glof_message glacial_lake risk_level (some now)
      additional_info now
    let alert : GLOFAlert :=
      { id := mkAlertId glacial_lake idStamp
      , glacial_lake := glacial_lake
      , risk_level := risk_level
      , timestamp := now
      , message := message
      , contacts := contacts.map GLOFContact.id
      , status := .PENDING
      , created_at := nowIso
      , sent_at := none
      , retry_count := 0 }
    let r := sendAlertCore env m alert contacts nowIso
    { createdAlert := some r.alert
    , offline := r.offline
    , returned := r.returned
    , smsAttempted := r.smsAttempted
    , emailAttempted := r.emailAttempted }

/-- Method `GLOFAlertSystem.send_all_clear`, lines 380-405: same role
defaulting and contact resolution as `send_glof_alert`, then the all-clear
message is dispatched through `_send_message`; no alert record exists. -/
def send_all_clear (env : ChannelEnv) (m : OfflineManager)
    (glacial_lake : String) (target_user_types : List UserType)
    (now : String) : MessageResult :=
  let roles := effectiveUserTypes target_user_types
  let contacts := get_contacts_for_lake predefinedContacts glacial_lake roles
  if contacts.isEmpty then
    { returned := false, smsAttempted := false, emailAttempted := false }
  else
    let _message := format_all_clear_message glacial_lake none now
    sendMessageCore env m contacts

/-- One step of a system run: either an alert dispatch through
`_send_alert` (with its per-dispatch environment and inputs) or a call to
`check_connectivity` with the given probe outcome. -/
inductive SysOp where
  | dispatch (env : ChannelEnv) (alert : GLOFAlert)
      (contacts : List GLOFContact) (now : String)
  | checkConn (probeOk : Bool)
deriving DecidableEq, Repr

/-- Executes one `SysOp` on the offline manager, reporting the status the
dispatched alert ended in (if the op was a dispatch). -/
def runStep (m : OfflineManager) : SysOp → OfflineManager × Option AlertStatus
  | .dispatch env alert contacts now =>
      let r := sendAlertCore env m alert contacts now
      (r.offline, some r.alert.status)
  | .checkConn probeOk => ((check_connectivity m probeOk).1, none)

/-- Executes a list of `SysOp`s from a starting manager, collecting the final
statuses of all dispatched alerts in order. -/
def runOps (m : OfflineManager) : List SysOp → OfflineManager × List AlertStatus
  | [] => (m, [])
  | op :: rest =>
      ((runOps (runStep m op).1 rest).1,
        (runStep m op).2.toList ++ (runOps (runStep m op).1 rest).2)

/-- Whether a `SysOp` is not a failed connectivity check: every dispatch
qualifies, and a `check_connectivity` call qualifies when its probe
succeeds. -/
def notFailedCheck : SysOp → Bool
  | .dispatch _ _ _ _ => true
  | .checkConn probeOk => probeOk

/-- Folds `add_offline_alert` over a list of alerts: a sequence of N
consecutive enqueue operations on the offline manager. -/
def enqueueAll (m : OfflineManager) (alerts : List GLOFAlert) : OfflineManager :=
  alerts.foldl (fun acc a => (add_offline_alert acc a).1) m

/-- A sample pending alert record used to instantiate concrete runs. -/
def sampleAlert : GLOFAlert :=
  { id := "glof_Pangong_Tso_20260101_000000"
  , glacial_lake := "Pangong Tso"
  , risk_level := .HIGH
  , timestamp := "2026-01-01 00:00 IST"
  , message := "msg"
  , contacts := ["Defence_Base"]
  , status := .PENDING
  , created_at := "2026-01-01T00:00:00" }

/-- A second sample alert, distinct from `sampleAlert`. -/
def sampleAlertB : GLOFAlert :=
  { sampleAlert with id := "glof_Pangong_Tso_20260101_000100" }

/-- An offline manager whose connectivity flag is off (after a failed
`check_connectivity`), with an empty queue. -/
def offlineManager0 : OfflineManager :=
  { offline_queue := [], is_online := false }

/-- A sample run: a dispatch while online, a successful connectivity check,
then a dispatch in which both channels fail while still online. -/
def sampleOps : List SysOp :=
  [ .dispatch ⟨true, true, true⟩ sampleAlert predefinedContacts "T"
  , .checkConn true
  , .dispatch ⟨true, false, false⟩ sampleAlertB predefinedContacts "T" ]

end GLOF

namespace GLOF

/-! Helper lemmas about the SMS normalization scan. -/

/-- Unfolding lemma: when the head does not start a `+91` occurrence, the
scan keeps it. -/
theorem stripPlus91_cons (c : Char) (t : List Char)
    (hne : c ≠ '+' ∨ ∀ rest, t ≠ '9' :: '1' :: rest) :
    stripPlus91 (c :: t) = c :: stripPlus91 t := by
  rw [stripPlus91.eq_def]
  split
  · rename_i rest heq
    injection heq with h1 h2
    rcases hne with hne | hne
    · exact absurd h1 hne
    · exact absurd h2 (hne rest)
  · rename_i c2 rest hne2 heq
    injection heq with h1 h2
    subst h1; subst h2
    rfl
  · rename_i heq
    simp at heq

/-- Unfolding lemma: when the head does not start a `+91` occurrence, the
occurrence test moves to the tail. -/
theorem hasPlus91_cons (c : Char) (t : List Char)
    (hne : c ≠ '+' ∨ ∀ rest, t ≠ '9' :: '1' :: rest) :
    hasPlus91 (c :: t) = hasPlus91 t := by
  rw [hasPlus91.eq_def]
  split
  · rename_i rest heq
    injection heq with h1 h2
    rcases hne with hne | hne
    · exact absurd h1 hne
    · exact absurd h2 (hne _)
  · rename_i c2 rest hne2 heq
    injection heq with h1 h2
    subst h2
    rfl
  · rename_i heq
    simp at heq

/-- On a character list with no `+91` occurrence, the removal scan is the
identity. -/
theorem stripPlus91_no_occurrence (l : List Char) (h : hasPlus91 l = false) :
    stripPlus91 l = l := by
  induction l with
  | nil => rfl
  | cons c t ih =>
      by_cases hc : c ≠ '+' ∨ ∀ rest, t ≠ '9' :: '1' :: rest
      · rw [hasPlus91_cons c t hc] at h
        rw [stripPlus91_cons c t hc, ih h]
      · push_neg at hc
        obtain ⟨hc1, rest, hrest⟩ := hc
        subst hc1
        subst hrest
        simp [hasPlus91] at h

/-- When `+91` occurs at most as a leading prefix, removing every occurrence
coincides with removing just the prefix. -/
theorem stripPlus91_eq_dropLeading (l : List Char)
    (h : hasPlus91 (dropLeadingPlus91 l) = false) :
    stripPlus91 l = dropLeadingPlus91 l := by
  by_cases hc : ∃ rest, l = '+' :: '9' :: '1' :: rest
  · obtain ⟨rest, hrest⟩ := hc
    subst hrest
    have hd : dropLeadingPlus91 ('+' :: '9' :: '1' :: rest) = rest := rfl
    rw [hd] at h ⊢
    show stripPlus91 rest = rest
    exact stripPlus91_no_occurrence rest h
  · have hd : dropLeadingPlus91 l = l := by
      rw [dropLeadingPlus91.eq_def]
      split
      · exfalso
        apply hc
        exact ⟨_, rfl⟩
      · rfl
    rw [hd] at h ⊢
    exact stripPlus91_no_occurrence l h

/-- The email channel's failed-recipient list is empty exactly when every
per-recipient send succeeded. -/
theorem failed_recipients_isEmpty (recipients : List (String × Bool)) :
    (((recipients.filter fun r => !r.2).map Prod.fst).isEmpty)
      = recipients.all Prod.snd := by
  induction recipients with
  | nil => rfl
  | cons r t ih =>
      cases h : r.2 <;> simp_all [List.filter_cons]

/-- The drain loop pops every queued alert, in order, and leaves nothing. -/
theorem drainLoop_eq (l : List GLOFAlert) : drainLoop l = (l, []) := by
  induction l with
  | nil => rfl
  | cons a t ih => simp [drainLoop, ih]

/-- N consecutive enqueue operations append the N alerts, in order, at the
back of the queue. -/
theorem enqueueAll_offline_queue (m : OfflineManager) (alerts : List GLOFAlert) :
    (enqueueAll m alerts).offline_queue = m.offline_queue ++ alerts := by
  induction alerts generalizing m with
  | nil => simp [enqueueAll]
  | cons a t ih =>
      show (enqueueAll ((add_offline_alert m a).1) t).offline_queue = _
      rw [ih]
      simp [add_offline_alert]

/-- While the connectivity flag is on, a dispatch leaves the offline manager
untouched and never ends in `OFFLINE_QUEUED`. -/
theorem sendAlertCore_online_frame (env : ChannelEnv) (m : OfflineManager)
    (alert : GLOFAlert) (contacts : List GLOFContact) (now : String)
    (h : m.is_online = true) :
    (sendAlertCore env m alert contacts now).offline = m
    ∧ (sendAlertCore env m alert contacts now).alert.status ≠ .OFFLINE_QUEUED := by
  cases hp : (phone_numbers contacts).isEmpty <;>
  cases hs : env.smsOutcome <;>
  cases hc : env.emailConfigured <;>
  cases he : (email_addresses contacts).isEmpty <;>
  cases he2 : env.emailOutcome <;>
  simp_all [sendAlertCore]

/-- Invariant of a run whose connectivity checks all succeed, from any
online state: the flag stays on, the queue is untouched, and no dispatched
alert ends `OFFLINE_QUEUED`. -/
theorem runOps_online_invariant (ops : List SysOp) (m : OfflineManager)
    (hon : m.is_online = true) (hall : ops.all notFailedCheck = true) :
    (runOps m ops).1.is_online = true
    ∧ (runOps m ops).1.offline_queue = m.offline_queue
    ∧ ∀ s ∈ (runOps m ops).2, s ≠ .OFFLINE_QUEUED := by
  induction ops generalizing m with
  | nil => simp [runOps, hon]
  | cons op t ih =>
      rw [List.all_cons, Bool.and_eq_true] at hall
      cases op with
      | dispatch env alert contacts now =>
          obtain ⟨hfo, hfs⟩ := sendAlertCore_online_frame env m alert contacts now hon
          obtain ⟨i1, i2, i3⟩ := ih m hon hall.2
          simp only [runOps, runStep]
          rw [hfo]
          refine ⟨i1, i2, ?_⟩
          intro s hs
          simp only [Option.toList_some, List.singleton_append, List.mem_cons] at hs
          rcases hs with hs | hs
          · rw [hs]
            exact hfs
          · exact i3 s hs
      | checkConn probeOk =>
          have hp : probeOk = true := hall.1
          subst hp
          obtain ⟨i1, i2, i3⟩ := ih { m with is_online := true } rfl hall.2
          simp only [runOps, runStep, check_connectivity]
          refine ⟨i1, ?_, ?_⟩
          · rw [i2]
          · intro s hs
            simp only [Option.toList_none, List.nil_append] at hs
            exact i3 s hs

end GLOF

namespace GLOF

/-- Claim C1: in a dispatch through `_send_alert` in which at least one
channel is attempted, if the SMS attempt or the email attempt succeeds
(logical OR) the final status is `SENT`, the method returns `True` and the
sent timestamp is recorded; if both attempted channels fail while the
connectivity flag is on, the status is `FAILED` and the method returns
`False`; and the sent timestamp is recorded only when the status becomes
`SENT`. -/
theorem sendAlert_or_success_status (env : ChannelEnv) (m : OfflineManager)
    (alert : GLOFAlert) (contacts : List GLOFContact) (now : String)
    (hsent : alert.sent_at = none)
    (hatt : (sendAlertCore env m alert contacts now).smsAttempted = true
      ∨ (sendAlertCore env m alert contacts now).emailAttempted = true) :
    (((sendAlertCore env m alert contacts now).smsAttempted && env.smsOutcome) = true
        ∨ ((sendAlertCore env m alert contacts now).emailAttempted && env.emailOutcome) = true →
      (sendAlertCore env m alert contacts now).alert.status = .SENT
        ∧ (sendAlertCore env m alert contacts now).returned = true
        ∧ (sendAlertCore env m alert contacts now).alert.sent_at = some now)
    ∧ (m.is_online = true →
        ((sendAlertCore env m alert contacts now).smsAttempted && env.smsOutcome) = false →
        ((sendAlertCore env m alert contacts now).emailAttempted && env.emailOutcome) = false →
      (sendAlertCore env m alert contacts now).alert.status = .FAILED
        ∧ (sendAlertCore env m alert contacts now).returned = false)
    ∧ ((sendAlertCore env m alert contacts now).alert.status ≠ .SENT →
        (sendAlertCore env m alert contacts now).alert.sent_at = none) := by
  cases hp : (phone_numbers contacts).isEmpty <;>
  cases hs : env.smsOutcome <;>
  cases ho : m.is_online <;>
  cases hc : env.emailConfigured <;>
  cases he : (email_addresses contacts).isEmpty <;>
  cases he2 : env.emailOutcome <;>
  simp_all [sendAlertCore]

/-- Witness for C1: with the predefined contacts, online, SMS failing and
email succeeding, the alert ends `SENT` with a recorded timestamp and the
dispatch returns `True`. -/
theorem sendAlert_or_success_status_w :
    sampleAlert.sent_at = none
    ∧ ((sendAlertCore ⟨true, false, true⟩ OfflineManager.start sampleAlert predefinedContacts "T").smsAttempted = true
        ∨ (sendAlertCore ⟨true, false, true⟩ OfflineManager.start sampleAlert predefinedContacts "T").emailAttempted = true)
    ∧ ((sendAlertCore ⟨true, false, true⟩ OfflineManager.start sampleAlert predefinedContacts "T").alert.status = .SENT
        ∧ (sendAlertCore ⟨true, false, true⟩ OfflineManager.start sampleAlert predefinedContacts "T").returned = true
        ∧ (sendAlertCore ⟨true, false, true⟩ OfflineManager.start sampleAlert predefinedContacts "T").alert.sent_at = some "T") :=
  ⟨rfl, Or.inl (by decide),
    (sendAlert_or_success_status ⟨true, false, true⟩ OfflineManager.start
        sampleAlert predefinedContacts "T" rfl (Or.inl (by decide))).1
      (Or.inr (by decide))⟩

/-- Claim C2: when the SMS attempt fails (numbers exist but the provider
reports failure) while the connectivity flag is off, the alert is marked
`OFFLINE_QUEUED`, exactly that one alert is appended to the offline queue,
email is not attempted, and the dispatch returns `True`. -/
theorem sendAlert_offline_sms_failure_queues (env : ChannelEnv)
    (m : OfflineManager) (alert : GLOFAlert) (contacts : List GLOFContact)
    (now : String)
    (hph : (phone_numbers contacts).isEmpty = false)
    (hsms : env.smsOutcome = false)
    (hoff : m.is_online = false) :
    (sendAlertCore env m alert contacts now).alert.status = .OFFLINE_QUEUED
    ∧ (sendAlertCore env m alert contacts now).offline.offline_queue
        = m.offline_queue ++ [{ alert with status := .OFFLINE_QUEUED }]
    ∧ (sendAlertCore env m alert contacts now).emailAttempted = false
    ∧ (sendAlertCore env m alert contacts now).returned = true := by
  simp [sendAlertCore, add_offline_alert, hph, hsms, hoff]

/-- Witness for C2: with the predefined contacts, the flag off and the SMS
provider failing, the sample alert is queued and the dispatch reports
success. -/
theorem sendAlert_offline_sms_failure_queues_w :
    (phone_numbers predefinedContacts).isEmpty = false
    ∧ (⟨true, false, true⟩ : ChannelEnv).smsOutcome = false
    ∧ offlineManager0.is_online = false
    ∧ ((sendAlertCore ⟨true, false, true⟩ offlineManager0 sampleAlert predefinedContacts "T").alert.status = .OFFLINE_QUEUED
        ∧ (sendAlertCore ⟨true, false, true⟩ offlineManager0 sampleAlert predefinedContacts "T").offline.offline_queue
            = offlineManager0.offline_queue ++ [{ sampleAlert with status := .OFFLINE_QUEUED }]
        ∧ (sendAlertCore ⟨true, false, true⟩ offlineManager0 sampleAlert predefinedContacts "T").emailAttempted = false
        ∧ (sendAlertCore ⟨true, false, true⟩ offlineManager0 sampleAlert predefinedContacts "T").returned = true) :=
  ⟨by decide, rfl, rfl,
    sendAlert_offline_sms_failure_queues ⟨true, false, true⟩ offlineManager0
      sampleAlert predefinedContacts "T" (by decide) rfl rfl⟩

/-- Counterexample to claim C3: for the same lake, role set, environment and
connectivity state (flag off), `send_all_clear` does not attempt SMS while
`send_glof_alert` does — `_send_message` gates the SMS attempt on the
connectivity flag, so the dispatch logic is not the same as `_send_alert`'s,
where SMS is always attempted first. -/
theorem allClear_sms_not_attempted_offline :
    (send_all_clear ⟨true, true, true⟩ offlineManager0 "Pangong Tso" [] "T").smsAttempted = false
    ∧ (send_glof_alert ⟨true, true, true⟩ offlineManager0 "Pangong Tso" .HIGH none [] "T" "I" "S").smsAttempted = true := by
  constructor
  · rfl
  · rfl

/-- Claim C3 (amended): `send_all_clear` shares `send_glof_alert`'s contact
resolution and dual-channel OR logic apart from the template and the absence
of a tracked alert record, but only while the connectivity flag is on: in
that case the two dispatch paths attempt the same channels and return the
same boolean; when the flag is off, `_send_message` attempts neither SMS nor
email and returns `False`, whereas `_send_alert` still attempts SMS first. -/
theorem allClear_vs_sendAlert_dispatch (env : ChannelEnv)
    (q : List GLOFAlert) (alert : GLOFAlert) (contacts : List GLOFContact)
    (now : String) :
    ((sendMessageCore env ⟨q, true⟩ contacts).smsAttempted
        = (sendAlertCore env ⟨q, true⟩ alert contacts now).smsAttempted
      ∧ (sendMessageCore env ⟨q, true⟩ contacts).emailAttempted
        = (sendAlertCore env ⟨q, true⟩ alert contacts now).emailAttempted
      ∧ (sendMessageCore env ⟨q, true⟩ contacts).returned
        = (sendAlertCore env ⟨q, true⟩ alert contacts now).returned)
    ∧ (sendMessageCore env ⟨q, false⟩ contacts).smsAttempted = false
    ∧ (sendMessageCore env ⟨q, false⟩ contacts).emailAttempted = false
    ∧ (sendMessageCore env ⟨q, false⟩ contacts).returned = false
    ∧ (sendAlertCore env ⟨q, false⟩ alert contacts now).smsAttempted
        = !(phone_numbers contacts).isEmpty := by
  cases hp : (phone_numbers contacts).isEmpty <;>
  cases hs : env.smsOutcome <;>
  cases hc : env.emailConfigured <;>
  cases he : (email_addresses contacts).isEmpty <;>
  cases he2 : env.emailOutcome <;>
  simp_all [sendAlertCore, sendMessageCore]

/-- Claim C4: the `/alert` route's mapping sends every score above 70 to
`CRITICAL`, scores in (40, 70] to `HIGH`, scores at most 40 to `MODERATE`,
never produces `LOW`, and maps the boundary values 71, 70, 41, 40 to
`CRITICAL`, `HIGH`, `HIGH`, `MODERATE`. -/
theorem risk_threshold_mapping (s : ℚ) :
    (70 < s → riskLevelOfScore s = .CRITICAL)
    ∧ (40 < s → s ≤ 70 → riskLevelOfScore s = .HIGH)
    ∧ (s ≤ 40 → riskLevelOfScore s = .MODERATE)
    ∧ riskLevelOfScore s ≠ .LOW
    ∧ riskLevelOfScore 71 = .CRITICAL
    ∧ riskLevelOfScore 70 = .HIGH
    ∧ riskLevelOfScore 41 = .HIGH
    ∧ riskLevelOfScore 40 = .MODERATE := by
  refine ⟨fun h => ?_, fun h40 h70 => ?_, fun h => ?_, ?_, ?_, ?_, ?_, ?_⟩
  · simp [riskLevelOfScore, h]
  · have h1 : ¬ s > 70 := by linarith
    simp [riskLevelOfScore, h1, h40]
  · have h1 : ¬ s > 70 := by linarith
    have h2 : ¬ s > 40 := by linarith
    simp [riskLevelOfScore, h1, h2]
  · unfold riskLevelOfScore
    split_ifs <;> simp
  · norm_num [riskLevelOfScore]
  · norm_num [riskLevelOfScore]
  · norm_num [riskLevelOfScore]
  · norm_num [riskLevelOfScore]

/-- Witness for C4 at the in-band score 50: it lies in (40, 70] and maps to
`HIGH`. -/
theorem risk_threshold_mapping_w :
    ((40 : ℚ) < 50 ∧ (50 : ℚ) ≤ 70) ∧ riskLevelOfScore 50 = .HIGH :=
  ⟨⟨by norm_num, by norm_num⟩,
    (risk_threshold_mapping 50).2.1 (by norm_num) (by norm_num)⟩

/-- Claim C5: when the contact lookup for the lake (with the given or
defaulted role set) is empty, `send_glof_alert` returns `False` without
attempting SMS or email, without creating an alert record, and without
touching the offline manager. -/
theorem sendAlert_no_contacts_returns_false (env : ChannelEnv)
    (m : OfflineManager) (lake : String) (risk : GLOFRiskLevel)
    (info : Option String) (roles : List UserType) (now nowIso idStamp : String)
    (h : get_contacts_for_lake predefinedContacts lake (effectiveUserTypes roles) = []) :
    (send_glof_alert env m lake risk info roles now nowIso idStamp).returned = false
    ∧ (send_glof_alert env m lake risk info roles now nowIso idStamp).createdAlert = none
    ∧ (send_glof_alert env m lake risk info roles now nowIso idStamp).smsAttempted = false
    ∧ (send_glof_alert env m lake risk info roles now nowIso idStamp).emailAttempted = false
    ∧ (send_glof_alert env m lake risk info roles now nowIso idStamp).offline = m := by
  simp [send_glof_alert, h]

/-- Witness for C5: the role filter `[LOCAL]` matches none of the predefined
contacts, so the alert send bails out. -/
theorem sendAlert_no_contacts_returns_false_w :
    get_contacts_for_lake predefinedContacts "Tsomgo" (effectiveUserTypes [.LOCAL]) = []
    ∧ ((send_glof_alert ⟨true, true, true⟩ OfflineManager.start "Tsomgo" .CRITICAL none [.LOCAL] "T" "I" "S").returned = false
        ∧ (send_glof_alert ⟨true, true, true⟩ OfflineManager.start "Tsomgo" .CRITICAL none [.LOCAL] "T" "I" "S").createdAlert = none
        ∧ (send_glof_alert ⟨true, true, true⟩ OfflineManager.start "Tsomgo" .CRITICAL none [.LOCAL] "T" "I" "S").smsAttempted = false
        ∧ (send_glof_alert ⟨true, true, true⟩ OfflineManager.start "Tsomgo" .CRITICAL none [.LOCAL] "T" "I" "S").emailAttempted = false
        ∧ (send_glof_alert ⟨true, true, true⟩ OfflineManager.start "Tsomgo" .CRITICAL none [.LOCAL] "T" "I" "S").offline = OfflineManager.start) :=
  ⟨by decide,
    sendAlert_no_contacts_returns_false ⟨true, true, true⟩ OfflineManager.start
      "Tsomgo" .CRITICAL none [.LOCAL] "T" "I" "S" (by decide)⟩

/-- Claim C6: starting from an empty queue, N enqueue operations followed by
one drain return exactly the N alerts in enqueue order and leave the queue
empty, so a second drain returns the empty list. -/
theorem offline_queue_fifo_drain (m : OfflineManager) (alerts : List GLOFAlert)
    (hq : m.offline_queue = []) :
    (get_queued_alerts (enqueueAll m alerts)).1 = alerts
    ∧ (get_queued_alerts (enqueueAll m alerts)).2.offline_queue = []
    ∧ (get_queued_alerts ((get_queued_alerts (enqueueAll m alerts)).2)).1 = [] := by
  simp [get_queued_alerts, drainLoop_eq, enqueueAll_offline_queue, hq]

/-- Witness for C6: two sample alerts enqueued on the fresh manager drain in
order and leave nothing behind. -/
theorem offline_queue_fifo_drain_w :
    OfflineManager.start.offline_queue = []
    ∧ ((get_queued_alerts (enqueueAll OfflineManager.start [sampleAlert, sampleAlertB])).1 = [sampleAlert, sampleAlertB]
        ∧ (get_queued_alerts (enqueueAll OfflineManager.start [sampleAlert, sampleAlertB])).2.offline_queue = []
        ∧ (get_queued_alerts ((get_queued_alerts (enqueueAll OfflineManager.start [sampleAlert, sampleAlertB])).2)).1 = []) :=
  ⟨rfl, offline_queue_fifo_drain OfflineManager.start [sampleAlert, sampleAlertB] rfl⟩

/-- Counterexample to claim C7: the code removes every occurrence of `+91`
(Python `str.replace`), not only a leading country-code prefix: on the
number `98+9134` the code's normalization yields `9834`, while removing only
a leading prefix (then dashes and spaces, as the claim describes) yields
`98+9134`. -/
theorem clean_number_not_only_prefix :
    clean_number "98+9134" = "9834"
    ∧ spec_normalize "98+9134" = "98+9134"
    ∧ clean_number "98+9134" ≠ spec_normalize "98+9134" := by
  refine ⟨by decide, by decide, by decide⟩

/-- Claim C7 (amended): each number is normalized by removing every
occurrence of the substring `+91` — which, for a number whose only
occurrence is an optional leading country-code prefix, is exactly the
removal of that prefix — then all dashes and all spaces, before being
comma-joined into the provider payload; in particular `+91 98765-43210`
normalizes to `9876543210`, which is also the payload field for the
singleton list. -/
theorem clean_number_prefix_equiv (num : String)
    (h : hasPlus91 (dropLeadingPlus91 num.data) = false) :
    clean_number num = spec_normalize num
    ∧ clean_number "+91 98765-43210" = "9876543210"
    ∧ sms_numbers_field ["+91 98765-43210"] = "9876543210" := by
  refine ⟨?_, by decide, by decide⟩
  unfold clean_number spec_normalize
  rw [stripPlus91_eq_dropLeading num.data h]

/-- Witness for C7 at the spec's own example number, whose only `+91` is the
leading prefix. -/
theorem clean_number_prefix_equiv_w :
    hasPlus91 (dropLeadingPlus91 ("+91 98765-43210").data) = false
    ∧ (clean_number "+91 98765-43210" = spec_normalize "+91 98765-43210"
        ∧ clean_number "+91 98765-43210" = "9876543210"
        ∧ sms_numbers_field ["+91 98765-43210"] = "9876543210") :=
  ⟨by decide, clean_number_prefix_equiv "+91 98765-43210" (by decide)⟩

/-- Counterexample to claim C8: when `server.login` raises, the outer
`except` handler returns a failure dictionary and `server.quit()` is never
reached — the session is not torn down on that exit path. -/
theorem email_login_error_skips_quit :
    (send_glof_email true true false [("a@example.com", true)]).errored = true
    ∧ (send_glof_email true true false [("a@example.com", true)]).quitCalled = false := by
  refine ⟨rfl, rfl⟩

/-- Claim C8 (amended): the SMTP session is closed on every exit path on
which session setup (connect, STARTTLS, login) succeeded — including paths
where some or all per-recipient sends fail, which only affect the success
flag and the failed-recipient list — but when a setup step raises, the
handler reports failure without closing the session. -/
theorem email_session_quit_on_setup_success (connectOk starttlsOk loginOk : Bool)
    (recipients : List (String × Bool)) :
    (send_glof_email connectOk starttlsOk loginOk recipients).quitCalled
      = (connectOk && starttlsOk && loginOk)
    ∧ ((connectOk && starttlsOk && loginOk) = true →
        (send_glof_email connectOk starttlsOk loginOk recipients).quitCalled = true
        ∧ (send_glof_email connectOk starttlsOk loginOk recipients).success
            = recipients.all Prod.snd
        ∧ (send_glof_email connectOk starttlsOk loginOk recipients).failed_recipients
            = (recipients.filter fun r => !r.2).map Prod.fst) := by
  cases connectOk <;> cases starttlsOk <;> cases loginOk <;>
    simp [send_glof_email, failed_recipients_isEmpty]

/-- Witness for C8 at a successful setup with one failing recipient: the
session is still closed, the channel reports failure, and the failing
recipient is recorded. -/
theorem email_session_quit_on_setup_success_w :
    ((true && true && true) = true)
    ∧ ((send_glof_email true true true [("a@example.com", true), ("b@example.com", false)]).quitCalled = true
        ∧ (send_glof_email true true true [("a@example.com", true), ("b@example.com", false)]).success
            = ([("a@example.com", true), ("b@example.com", false)].all Prod.snd)
        ∧ (send_glof_email true true true [("a@example.com", true), ("b@example.com", false)]).failed_recipients
            = (([("a@example.com", true), ("b@example.com", false)].filter fun r => !r.2).map Prod.fst)) :=
  ⟨rfl,
    (email_session_quit_on_setup_success true true true
        [("a@example.com", true), ("b@example.com", false)]).2 rfl⟩

/-- Claim C9: the connectivity flag is `True` at construction, and in any
run whose connectivity checks (if any) all succeed — in particular any run
that never calls `check_connectivity` — no dispatched alert ever ends in
`OFFLINE_QUEUED`, the offline queue stays empty, and the flag is still
`True` afterwards (a dispatch alone never changes it). -/
theorem alerts_never_offline_queued_while_online (ops : List SysOp)
    (h : ops.all notFailedCheck = true) :
    OfflineManager.start.is_online = true
    ∧ (∀ s ∈ (runOps OfflineManager.start ops).2, s ≠ .OFFLINE_QUEUED)
    ∧ (runOps OfflineManager.start ops).1.offline_queue = []
    ∧ (runOps OfflineManager.start ops).1.is_online = true := by
  obtain ⟨i1, i2, i3⟩ := runOps_online_invariant ops OfflineManager.start rfl h
  exact ⟨rfl, i3, i2, i1⟩

/-- Witness for C9 on the sample run (two dispatches, one successful check):
no status is `OFFLINE_QUEUED` and the queue stays empty. -/
theorem alerts_never_offline_queued_while_online_w :
    sampleOps.all notFailedCheck = true
    ∧ (OfflineManager.start.is_online = true
        ∧ (∀ s ∈ (runOps OfflineManager.start sampleOps).2, s ≠ .OFFLINE_QUEUED)
        ∧ (runOps OfflineManager.start sampleOps).1.offline_queue = []
        ∧ (runOps OfflineManager.start sampleOps).1.is_online = true) :=
  ⟨by decide, alerts_never_offline_queued_while_online sampleOps (by decide)⟩

/-- Claim C10: formatting an alert with the empty string as the extra-info
argument produces exactly the text produced with no extra info at all — the
trailing `Additional Info` section is appended only for a non-empty
string. -/
theorem format_empty_extra_info_eq_none (lake : String) (risk : GLOFRiskLevel)
    (timestamp : Option String) (now : String) :
    format_glof_message lake risk timestamp (some "") now
      = format_glof_message lake risk timestamp none now := rfl

end GLOF
